import Mathlib

/-!
Shallow embedding of the video controller
(src/controllers/video.controller.js) of the Backend-project repository.
The external collaborators (media store adapter, object-document mapper,
identifier library, JS number conversion) are modelled at their
interfaces, following the specification's description of them; every
such modelling choice is flagged in the doc comment of the definition.
Handlers return the produced outcome together with the ordered list of
side effects (remote uploads/deletes and database operations) they
issued, so that ordering and absence of effects are provable.
-/

/-- A JavaScript number as the controller observes it: NaN, an infinity,
or a finite value (modelled as a rational). -/
inductive JSNum
  | nan
  | posInf
  | negInf
  | fin (q : ℚ)
deriving DecidableEq, Repr

/-- JavaScript Number.isFinite. -/
def JSNum.isFinite : JSNum → Bool
  | .fin _ => true
  | _ => false

/-- JavaScript comparison n < c against a finite constant: false for NaN
and positive infinity, true for negative infinity. -/
def JSNum.ltc : JSNum → ℚ → Bool
  | .nan, _ => false
  | .posInf, _ => false
  | .negInf, _ => true
  | .fin q, c => decide (q < c)

/-- The finite value carried by a JS number (0 in the non-finite cases,
which the controller has ruled out wherever this is used). -/
def JSNum.val : JSNum → ℚ
  | .fin q => q
  | _ => 0

/-- JavaScript string truthiness of an optional string: undefined and the
empty string are falsy, every other string is truthy. -/
def jsTruthyO : Option String → Bool
  | none => false
  | some s => s != ""

/-- A JavaScript whitespace character as String.prototype.trim removes
it (the common ASCII subset). -/
def isJsSpace (c : Char) : Bool :=
  c == ' ' || c == '\t' || c == '\n' || c == '\r' || c == '\x0b' || c == '\x0c'

/-- The JavaScript builtin String.prototype.trim: strip leading and
trailing whitespace. -/
def jsTrim (s : String) : String :=
  ⟨((s.toList.dropWhile isJsSpace).reverse.dropWhile isJsSpace).reverse⟩

/-- ASCII lowering of one character, for the case-insensitive match. -/
def charLower (c : Char) : Char :=
  if 'A' ≤ c && c ≤ 'Z' then Char.ofNat (c.toNat + 32) else c

/-- The characters of a string, lowered. -/
def strLowerList (s : String) : List Char := s.toList.map charLower

/-- The controller's blank test on an optional string value, as in
`!s || !s.trim()`: absent, empty, or whitespace-only. -/
def strBlank : Option String → Bool
  | none => true
  | some s => jsTrim s == ""

/-- Modelled from the spec: the external library's well-formed identifier
check (isValidObjectId), read as the canonical 24-character hexadecimal
form of an object identifier. -/
def isValidObjectId (s : String) : Bool :=
  s.length == 24 &&
    s.toList.all (fun c => c.isDigit || ('a' ≤ c && c ≤ 'f') || ('A' ≤ c && c ≤ 'F'))

/-- The identifier check applied to an optional value; an absent value is
not a valid identifier. -/
def isValidObjectIdO : Option String → Bool
  | none => false
  | some s => isValidObjectId s

/-- Modelled from the spec: mongoose.Types.ObjectId applied to the
optional userId of the listing request. A supplied id maps to itself; an
absent one still yields an identifier (a freshly generated value,
modelled as a fixed constant), so the owner filter is built in every
case, as the spec's design notes describe. -/
def generatedObjectId : String := "aaaaaaaaaaaaaaaaaaaaaaaa"

/-- See `generatedObjectId`. -/
def objectIdOf : Option String → String
  | none => generatedObjectId
  | some s => s

/-- Whether `pat` is an initial segment of the second list. -/
def listStartsWith : List Char → List Char → Bool
  | [], _ => true
  | _ :: _, [] => false
  | a :: as, b :: bs => a == b && listStartsWith as bs

/-- Whether `pat` occurs as a contiguous segment of the list. -/
def listHasSegment (pat : List Char) : List Char → Bool
  | [] => pat.isEmpty
  | a :: t => listStartsWith pat (a :: t) || listHasSegment pat t

/-- Modelled from the spec: the case-insensitive title match
`new RegExp(query.trim(), "i")`, read as the spec's case-insensitive
substring match of the trimmed query against the title. -/
def regexTestI (pat s : String) : Bool :=
  listHasSegment (strLowerList pat) (strLowerList s)

/-- Modelled from the spec: the User entity as far as the listing join
consumes it (identifier, display name, avatar, and the other profile
URLs the spec lists). -/
structure User where
  _id : String
  username : String
  fullName : String
  avatar : String
  coverImage : String
deriving DecidableEq, Repr

/-- Modelled from the spec: the Video entity (the model file itself is
not among the provided sources; fields are the ones the spec's data
model lists and the controller reads and writes). -/
structure Video where
  _id : String
  videoFile : String
  thumbnail : String
  title : String
  description : String
  duration : ℚ
  views : ℚ
  isPublished : Bool
  owner : String
  createdAt : ℚ
deriving DecidableEq, Repr

/-- The two collections the controller queries. -/
structure DB where
  videos : List Video
  users : List User
deriving Repr

/-- The sort key parameter of the listing request, modelled as the
enumeration of the document fields relevant to sorting; `other` stands
for an absent or unknown key, which sorts every document as a missing
value. -/
inductive SortField
  | idKey
  | title
  | views
  | duration
  | createdAt
  | owner
  | other
deriving DecidableEq, Repr

/-- A sortable value in the engine's ordering: missing sorts below
numbers, numbers below strings. -/
inductive SortVal
  | missing
  | num (q : ℚ)
  | str (s : String)
deriving DecidableEq, Repr

/-- The engine's ascending comparison on sortable values. -/
def svLe : SortVal → SortVal → Bool
  | .missing, _ => true
  | .num _, .missing => false
  | .num p, .num q => decide (p ≤ q)
  | .num _, .str _ => true
  | .str _, .missing => false
  | .str _, .num _ => false
  | .str a, .str b => decide (a ≤ b)

/-- The $lookup stage joining users on _id = owner, followed by the
$addFields/$first extraction of the single joined row. -/
def lookupOwner (db : DB) (ownerId : String) : Option User :=
  List.find? (fun u => u._id == ownerId) db.users

/-- The sort key of a joined row for a given sortBy parameter. -/
def sortValue (p : Video × Option User) : Option SortField → SortVal
  | none => .missing
  | some .idKey => .str p.1._id
  | some .title => .str p.1.title
  | some .views => .num p.1.views
  | some .duration => .num p.1.duration
  | some .createdAt => .num p.1.createdAt
  | some .owner => .str p.1.owner
  | some .other => .missing

/-- The $sort comparison: `{ [sortBy]: sortType === "desc" ? -1 : 1 }`. -/
def sortLeB (sb : Option SortField) (st : Option String) (a b : Video × Option User) : Bool :=
  if st == some "desc" then svLe (sortValue b sb) (sortValue a sb)
  else svLe (sortValue a sb) (sortValue b sb)

/-- The row shape produced by the pipeline's $project stage: the listed
video fields plus the joined owner display fields, which are absent when
no owner matched. -/
structure ProjectedVideo where
  _id : String
  title : String
  videoFile : String
  thumbnail : String
  views : ℚ
  duration : ℚ
  createdAt : ℚ
  owner : String
  ownerName : Option String
  ownerAvatar : Option String
deriving DecidableEq, Repr

/-- The $project stage applied to a joined row. -/
def project (p : Video × Option User) : ProjectedVideo :=
  { _id := p.1._id
    title := p.1.title
    videoFile := p.1.videoFile
    thumbnail := p.1.thumbnail
    views := p.1.views
    duration := p.1.duration
    createdAt := p.1.createdAt
    owner := p.1.owner
    ownerName := p.2.map User.fullName
    ownerAvatar := p.2.map User.avatar }

/-- The sort key read back off a projected row. -/
def sortValueP (r : ProjectedVideo) : Option SortField → SortVal
  | none => .missing
  | some .idKey => .str r._id
  | some .title => .str r.title
  | some .views => .num r.views
  | some .duration => .num r.duration
  | some .createdAt => .num r.createdAt
  | some .owner => .str r.owner
  | some .other => .missing

/-- The $match stage of the listing pipeline: owner equality (built from
the optional userId in every case), published flag, and the
case-insensitive title match on the trimmed query. -/
def matchPred (userId : Option String) (q : String) (v : Video) : Bool :=
  v.owner == objectIdOf userId && v.isPublished && regexTestI (jsTrim q) v.title

/-- Insertion of an element into a list that is sorted by `le`. -/
def orderedInsert (le : α → α → Bool) (a : α) : List α → List α
  | [] => [a]
  | b :: l => if le a b then a :: b :: l else b :: orderedInsert le a l

/-- Sorting by repeated ordered insertion; stands in for the engine's
$sort stage (any sort producing an ordered permutation is adequate for
the properties stated below). -/
def insertionSort (le : α → α → Bool) : List α → List α
  | [] => []
  | a :: l => orderedInsert le a (insertionSort le l)

/-- The match, lookup/addFields and sort stages of the listing pipeline,
before pagination and projection. -/
def matchedSorted (db : DB) (userId : Option String) (q : String)
    (sb : Option SortField) (st : Option String) : List (Video × Option User) :=
  insertionSort (sortLeB sb st)
    ((List.filter (matchPred userId q) db.videos).map (fun v => (v, lookupOwner db v.owner)))

/-- Modelled from the spec: the record count handed to the engine's skip
and limit stages. The spec specifies pagination only at integral counts
("skipping (page-1)*limit records"); a non-integral count floors. -/
def ratCount (q : ℚ) : ℕ := (⌊q⌋).toNat

/-- A side effect issued by a handler, in issue order: a media-store
upload or delete, or a database operation. -/
inductive Effect
  | uploadMedia (path : String)
  | deleteMedia (url : String)
  | dbAggregate
  | dbCreate (videoFile thumbnail title description : String) (duration : ℚ) (owner : Option String)
  | dbFindById (id : String)
  | dbUpdate (id title description thumbnail : String)
deriving DecidableEq, Repr

/-- What a handler run produces: a success envelope, a thrown ApiError,
or an uncaught JavaScript error. -/
inductive Outcome (α : Type)
  | ok (status : ℕ) (data : α)
  | apiError (status : ℕ) (message : String)
  | jsError (message : String)
deriving DecidableEq, Repr

/-- Whether an outcome is a Validation error (HTTP 400). -/
def is400 : Outcome α → Bool
  | .apiError 400 _ => true
  | _ => false

/-- The listing request. `page` and `limit` hold the JS number the raw
query parameter converts to under Number(), none when the parameter is
absent (the destructuring defaults 1 and 10 then apply); `sortBy` is the
sort key parameter as a document field. -/
structure ListReq where
  page : Option JSNum
  limit : Option JSNum
  query : Option String
  sortBy : Option SortField
  sortType : Option String
  userId : Option String

/-- getAllVideos (src/controllers/video.controller.js, lines 12-97):
validate page, limit, query and userId, then run the aggregation
pipeline (match, lookup, addFields, sort, skip, limit, project) and
answer 200 with the page. -/
def getAllVideos (db : DB) (req : ListReq) : Outcome (List ProjectedVideo) × List Effect :=
  let pageNum := req.page.getD (.fin 1)
  let limitNum := req.limit.getD (.fin 10)
  if !pageNum.isFinite || pageNum.ltc 1 then
    (.apiError 400 "Page should be a positive integer", [])
  else if !limitNum.isFinite || limitNum.ltc 1 then
    (.apiError 400 "Video limit should be a positive integer", [])
  else if strBlank req.query then
    (.apiError 400 "Query is required", [])
  else if jsTruthyO req.userId && !isValidObjectIdO req.userId then
    (.apiError 400 "Please provide a valid user id", [])
  else
    let startIndex := ratCount ((pageNum.val - 1) * limitNum.val)
    let allVideos :=
      (((matchedSorted db req.userId (req.query.getD "") req.sortBy req.sortType).drop
          startIndex).take (ratCount limitNum.val)).map project
    (.ok 200 allVideos, [.dbAggregate])

/-- One entry of a multer field array; only its temporary path is read. -/
structure FilePart where
  path : String
deriving DecidableEq, Repr

/-- The multipart files object: each field is absent or an array. -/
structure FilesObj where
  videoFile : Option (List FilePart)
  thumbnail : Option (List FilePart)
deriving DecidableEq, Repr

/-- The optional-chain read `req.files?.FIELD[0]?.path`: an absent files
object short-circuits the whole chain to undefined; a present files
object with the field absent makes the index [0] throw a TypeError; an
empty array yields undefined through the trailing optional access. -/
def chainRead (files : Option FilesObj) (field : FilesObj → Option (List FilePart)) :
    Except String (Option String) :=
  match files with
  | none => .ok none
  | some fs =>
    match field fs with
    | none => .error "TypeError: Cannot read properties of undefined (reading 0)"
    | some parts => .ok (parts.head?.map FilePart.path)

/-- What the media store returns for a stored asset. -/
structure UploadResult where
  url : String
  duration : ℚ
deriving DecidableEq, Repr

/-- The media store adapter: uploadOnCloudinary answers none on failure. -/
structure Env where
  upload : String → Option UploadResult

/-- The create request: body fields, the multipart files object, and the
authenticated caller's identity `req.user?._id` (none when absent). -/
structure PublishReq where
  title : Option String
  description : Option String
  files : Option FilesObj
  user : Option String

/-- publishAVideo (lines 99-149): read both file paths (these reads can
throw, see `chainRead`), validate title/description and the paths,
upload the video file then the thumbnail, fail 500 if either upload
returned nothing, persist the new record, then call `Video.findbyId`.
The persistence gateway (spec: create, findById, findByIdAndUpdate,
aggregate) has no method named `findbyId`, so that call throws a
TypeError and the remaining lines (the 500 re-read check and the 200
envelope) are unreachable. -/
def publishAVideo (env : Env) (req : PublishReq) : Outcome Video × List Effect :=
  match chainRead req.files FilesObj.videoFile with
  | .error e => (.jsError e, [])
  | .ok videoFileLocalPath =>
    match chainRead req.files FilesObj.thumbnail with
    | .error e => (.jsError e, [])
    | .ok thumbnailLocalPath =>
      if strBlank req.title || strBlank req.description then
        (.apiError 400 "Tilte and description are required fields", [])
      else if !(jsTruthyO videoFileLocalPath && jsTruthyO thumbnailLocalPath) then
        (.apiError 400 "no video file or thumbnail detected", [])
      else
        let vfp := videoFileLocalPath.getD ""
        let thp := thumbnailLocalPath.getD ""
        match env.upload vfp, env.upload thp with
        | some vf, some th =>
          (.jsError "TypeError: Video.findbyId is not a function",
            [.uploadMedia vfp, .uploadMedia thp,
             .dbCreate vf.url th.url (req.title.getD "") (req.description.getD "")
               vf.duration req.user])
        | _, _ =>
          (.apiError 500 "Something went wrong while uploading the video or thumbnail",
            [.uploadMedia vfp, .uploadMedia thp])

/-- The retrieval request: the :videoId route parameter. -/
structure GetByIdReq where
  videoId : Option String

/-- getVideoById (lines 151-167): 400 when the identifier is falsy, then
`Video.findbyId` - a method the persistence gateway does not have - so
the lookup line throws a TypeError before any database read, and the
not-found 400 and the 200 envelope are unreachable. -/
def getVideoById (db : DB) (req : GetByIdReq) : Outcome Video × List Effect :=
  if !jsTruthyO req.videoId then
    (.apiError 400 "There is no such video", [])
  else
    (.jsError "TypeError: Video.findbyId is not a function", [])

/-- The ownership comparison
`req.user?._id.toString() !== video.owner.toString()`: an absent
authenticated user short-circuits to undefined, which differs from any
owner string. -/
def userMismatch : Option String → String → Bool
  | none, _ => true
  | some u, ow => u != ow

/-- The update request: the :videoId route parameter, body fields, the
multipart files object, and the caller identity. -/
structure UpdateReq where
  videoId : Option String
  title : Option String
  description : Option String
  files : Option FilesObj
  user : Option String

/-- updateVideo (lines 169-225): validate the identifier, read the
thumbnail path (this read can throw, see `chainRead`), validate the path
and the body fields, load the record (404 when absent), check ownership
(403 on mismatch), upload the new thumbnail (500 on failure), write the
record, and only then delete the old thumbnail asset when it is truthy. -/
def updateVideo (env : Env) (db : DB) (req : UpdateReq) : Outcome Video × List Effect :=
  if !isValidObjectIdO req.videoId then
    (.apiError 400 "Invalid video ID", [])
  else
    match chainRead req.files FilesObj.thumbnail with
    | .error e => (.jsError e, [])
    | .ok thumbnailLocalPath =>
      if !jsTruthyO thumbnailLocalPath then
        (.apiError 400 "No thumbnail file detected", [])
      else if strBlank req.title || strBlank req.description then
        (.apiError 400 "Title and description are required fields", [])
      else
        let vid := req.videoId.getD ""
        match List.find? (fun v => v._id == vid) db.videos with
        | none => (.apiError 404 "Video not found", [.dbFindById vid])
        | some video =>
          if userMismatch req.user video.owner then
            (.apiError 403 "You are not authorized to update this video", [.dbFindById vid])
          else
            let oldThumbnail := video.thumbnail
            let thp := thumbnailLocalPath.getD ""
            match env.upload thp with
            | none => (.apiError 500 "Failed to upload the new thumbnail",
                [.dbFindById vid, .uploadMedia thp])
            | some thumbnail =>
              let updatedVideo :=
                { video with
                    title := req.title.getD ""
                    description := req.description.getD ""
                    thumbnail := thumbnail.url }
              if oldThumbnail != "" then
                (.ok 200 updatedVideo,
                  [.dbFindById vid, .uploadMedia thp,
                   .dbUpdate vid (req.title.getD "") (req.description.getD "") thumbnail.url,
                   .deleteMedia oldThumbnail])
              else
                (.ok 200 updatedVideo,
                  [.dbFindById vid, .uploadMedia thp,
                   .dbUpdate vid (req.title.getD "") (req.description.getD "") thumbnail.url])

/-- The data carried by a successful listing outcome, the empty page
otherwise. -/
def outData (x : Outcome (List ProjectedVideo) × List Effect) : List ProjectedVideo :=
  match x.1 with
  | .ok _ l => l
  | _ => []

/-- A page or limit number the listing rejects: non-finite, or finite
below 1. Integrality is not required. -/
def jsNumBad : JSNum → Prop
  | .fin q => q < 1
  | _ => True

instance : DecidablePred jsNumBad := fun n => by
  cases n <;> simp [jsNumBad] <;> infer_instance

/-- A query value the listing rejects: absent or blank after trimming. -/
def queryBad : Option String → Prop
  | none => True
  | some s => jsTrim s = ""

instance : DecidablePred queryBad := fun q => by
  cases q <;> simp [queryBad] <;> infer_instance

/-- A userId value the listing rejects: supplied (truthy) but not a
well-formed identifier. -/
def userIdBad : Option String → Prop
  | none => False
  | some s => s ≠ "" ∧ isValidObjectId s = false

instance : DecidablePred userIdBad := fun u => by
  cases u <;> simp [userIdBad] <;> infer_instance

/-- An empty database, used by concrete instantiations below. -/
def emptyDb : DB := ⟨[], []⟩

/-- A media store on which every upload succeeds, returning a canonical
URL and a reported duration of 37 seconds. -/
def envOk : Env := ⟨fun p => some ⟨"https://cdn/" ++ p, 37⟩⟩

/-- A media store on which every upload fails. -/
def envFail : Env := ⟨fun _ => none⟩

/-- A well-formed 24-hex identifier used as a video id below. -/
def vid24 : String := "0123456789abcdef01234567"

/-- A well-formed 24-hex identifier used as a user id below. -/
def uid24 : String := "abcdefabcdefabcdefabcdef"

/-- A fully valid create request with both files present. -/
def pubReqOk : PublishReq :=
  { title := some "My title"
    description := some "My description"
    files := some { videoFile := some [⟨"v.mp4"⟩], thumbnail := some [⟨"t.png"⟩] }
    user := some uid24 }

/-- A create request whose files object is present but lacks the
videoFile field. -/
def pubReqNoVideoField : PublishReq :=
  { title := some "My title"
    description := some "My description"
    files := some { videoFile := none, thumbnail := some [⟨"t.png"⟩] }
    user := some uid24 }

/-- A stored, published video owned by `uid24`. -/
def storedVideo : Video :=
  { _id := vid24
    videoFile := "https://cdn/old-video.mp4"
    thumbnail := "https://cdn/old-thumb.png"
    title := "A cat video"
    description := "Old description"
    duration := 12
    views := 3
    isPublished := true
    owner := uid24
    createdAt := 1000 }

/-- A second stored, published video owned by `uid24`. -/
def storedVideo2 : Video :=
  { _id := "89abcdef0123456789abcdef"
    videoFile := "https://cdn/v2.mp4"
    thumbnail := "https://cdn/t2.png"
    title := "Another cat"
    description := "Second"
    duration := 8
    views := 7
    isPublished := true
    owner := uid24
    createdAt := 2000 }

/-- A database holding the two stored videos. -/
def dbTwo : DB := ⟨[storedVideo, storedVideo2], []⟩

/-- A valid listing request: page 2, limit 1, query "cat", sorted by
views, owned by `uid24`. -/
def listReqOk : ListReq :=
  { page := some (.fin 2)
    limit := some (.fin 1)
    query := some "cat"
    sortBy := some .views
    sortType := none
    userId := some uid24 }

/-- A listing request whose page parameter converts to the finite
non-integer 2.5 and which is otherwise valid. -/
def listReqHalfPage : ListReq :=
  { page := some (.fin (5 / 2))
    limit := none
    query := some "cat"
    sortBy := none
    sortType := none
    userId := none }

/-- A listing request whose page parameter converts to NaN. -/
def listReqNanPage : ListReq :=
  { page := some .nan
    limit := none
    query := some "cat"
    sortBy := none
    sortType := none
    userId := none }

/-- An update request on `storedVideo` issued by a non-owner. -/
def updReqIntruder : UpdateReq :=
  { videoId := some vid24
    title := some "New title"
    description := some "New description"
    files := some { videoFile := none, thumbnail := some [⟨"th.png"⟩] }
    user := some "intruder" }

/-- An update request on `storedVideo` issued by its owner. -/
def updReqOwner : UpdateReq :=
  { videoId := some vid24
    title := some "New title"
    description := some "New description"
    files := some { videoFile := none, thumbnail := some [⟨"th.png"⟩] }
    user := some uid24 }

/-- An update request with an ill-formed identifier whose files object is
present but lacks the thumbnail field. -/
def updReqBadId : UpdateReq :=
  { videoId := some "notanid"
    title := some "t"
    description := some "d"
    files := some { videoFile := none, thumbnail := none }
    user := some uid24 }

/-- The page-order comparison the listing promises: reversed when
sortType is "desc", the engine's ascending order otherwise. -/
def dirLe (st : Option String) (a b : SortVal) : Bool :=
  if st == some "desc" then svLe b a else svLe a b

/-- Membership in an ordered insertion. -/
theorem mem_orderedInsert (le : α → α → Bool) (a : α) (l : List α) (x : α) :
    x ∈ orderedInsert le a l ↔ x = a ∨ x ∈ l := by
  induction l with
  | nil => simp [orderedInsert]
  | cons b t ih =>
    by_cases h : le a b = true
    · simp [orderedInsert, h]
    · simp only [orderedInsert, if_neg h, List.mem_cons, ih]
      tauto

/-- Membership in the insertion sort. -/
theorem mem_insertionSort (le : α → α → Bool) (l : List α) (x : α) :
    x ∈ insertionSort le l ↔ x ∈ l := by
  induction l with
  | nil => simp [insertionSort]
  | cons a t ih => simp [insertionSort, mem_orderedInsert, ih]

/-- Ordered insertion into a sorted list keeps it sorted, for a total and
transitive comparison. -/
theorem pairwise_orderedInsert (le : α → α → Bool)
    (tot : ∀ a b, le a b = true ∨ le b a = true)
    (tr : ∀ a b c, le a b = true → le b c = true → le a c = true)
    (a : α) (l : List α) (h : l.Pairwise (fun x y => le x y = true)) :
    (orderedInsert le a l).Pairwise (fun x y => le x y = true) := by
  induction l with
  | nil => simp [orderedInsert]
  | cons b t ih =>
    rcases List.pairwise_cons.mp h with ⟨hb, ht⟩
    by_cases hab : le a b = true
    · rw [orderedInsert, if_pos hab]
      refine List.pairwise_cons.mpr ⟨?_, h⟩
      intro x hx
      rcases List.mem_cons.mp hx with rfl | hx
      · exact hab
      · exact tr a b x hab (hb x hx)
    · rw [orderedInsert, if_neg hab]
      refine List.pairwise_cons.mpr ⟨?_, ih ht⟩
      intro x hx
      rcases (mem_orderedInsert le a t x).mp hx with rfl | hx
      · rcases tot x b with h1 | h1
        · exact absurd h1 hab
        · exact h1
      · exact hb x hx

/-- The insertion sort is sorted, for a total and transitive comparison. -/
theorem pairwise_insertionSort (le : α → α → Bool)
    (tot : ∀ a b, le a b = true ∨ le b a = true)
    (tr : ∀ a b c, le a b = true → le b c = true → le a c = true)
    (l : List α) :
    (insertionSort le l).Pairwise (fun x y => le x y = true) := by
  induction l with
  | nil => simp [insertionSort]
  | cons a t ih => exact pairwise_orderedInsert le tot tr a _ ih

/-- The engine's value comparison is total. -/
theorem svLe_total (a b : SortVal) : svLe a b = true ∨ svLe b a = true := by
  cases a <;> cases b <;> simp [svLe]
  · exact le_total _ _
  · exact le_total _ _

/-- The engine's value comparison is transitive. -/
theorem svLe_trans (a b c : SortVal) (h1 : svLe a b = true) (h2 : svLe b c = true) :
    svLe a c = true := by
  cases a <;> cases b <;> cases c <;> simp_all [svLe]
  · exact le_trans h1 h2
  · exact le_trans h1 h2

/-- The $sort comparison is total in both directions. -/
theorem sortLeB_total (sb : Option SortField) (st : Option String)
    (a b : Video × Option User) :
    sortLeB sb st a b = true ∨ sortLeB sb st b a = true := by
  by_cases h : (st == some "desc") = true <;> simp [sortLeB, h] <;> exact svLe_total _ _

/-- The $sort comparison is transitive in both directions. -/
theorem sortLeB_trans (sb : Option SortField) (st : Option String)
    (a b c : Video × Option User)
    (h1 : sortLeB sb st a b = true) (h2 : sortLeB sb st b c = true) :
    sortLeB sb st a c = true := by
  by_cases h : (st == some "desc") = true <;> simp [sortLeB, h] at h1 h2 ⊢
  · exact svLe_trans _ _ _ h2 h1
  · exact svLe_trans _ _ _ h1 h2

/-- The pre-pagination pipeline output is sorted by the $sort comparison. -/
theorem pairwise_matchedSorted (db : DB) (userId : Option String) (q : String)
    (sb : Option SortField) (st : Option String) :
    (matchedSorted db userId q sb st).Pairwise (fun x y => sortLeB sb st x y = true) :=
  pairwise_insertionSort _ (sortLeB_total sb st) (sortLeB_trans sb st) _

/-- Projection preserves the sort key. -/
theorem sortValueP_project (p : Video × Option User) (sb : Option SortField) :
    sortValueP (project p) sb = sortValue p sb := by
  cases sb with
  | none => rfl
  | some f => cases f <;> rfl

/-- Every row of the pre-pagination pipeline output carries the owner the
match stage filtered on. -/
theorem mem_matchedSorted_owner {db : DB} {userId : Option String} {q : String}
    {sb : Option SortField} {st : Option String} {p : Video × Option User}
    (hp : p ∈ matchedSorted db userId q sb st) : p.1.owner = objectIdOf userId := by
  unfold matchedSorted at hp
  rw [mem_insertionSort] at hp
  rcases List.mem_map.mp hp with ⟨v, hv, rfl⟩
  have hm := List.of_mem_filter hv
  simp only [matchPred, Bool.and_eq_true, beq_iff_eq] at hm
  exact hm.1.1

/-- The skip count at an integral page and limit. -/
theorem ratCount_page (pn ln : ℕ) (h : 1 ≤ pn) :
    ratCount (((pn : ℚ) - 1) * (ln : ℚ)) = (pn - 1) * ln := by
  have hc : ((pn : ℚ) - 1) * (ln : ℚ) = (((pn - 1) * ln : ℕ) : ℚ) := by
    rw [Nat.cast_mul, Nat.cast_sub h, Nat.cast_one]
  rw [hc]
  unfold ratCount
  rw [Int.floor_natCast]
  exact Int.toNat_natCast _

/-- The take count at an integral limit. -/
theorem ratCount_natCast (n : ℕ) : ratCount ((n : ℚ)) = n := by
  unfold ratCount
  rw [Int.floor_natCast]
  exact Int.toNat_natCast _

/-- The page guard fires exactly on the bad page numbers. -/
theorem jsNumBad_iff (n : JSNum) : (!n.isFinite || n.ltc 1) = true ↔ jsNumBad n := by
  cases n <;> simp [JSNum.isFinite, JSNum.ltc, jsNumBad]

/-- The query guard fires exactly on the bad query values. -/
theorem queryBad_iff (q : Option String) : strBlank q = true ↔ queryBad q := by
  cases q <;> simp [strBlank, queryBad]

/-- The userId guard fires exactly on the bad userId values. -/
theorem userIdBad_iff (u : Option String) :
    (jsTruthyO u && !isValidObjectIdO u) = true ↔ userIdBad u := by
  cases u <;> simp [jsTruthyO, isValidObjectIdO, userIdBad]

/-- C1: a create request that passes validation and whose two uploads
succeed does persist the new record (with the uploaded asset's duration
and the caller's identity as owner), but the handler then calls
`Video.findbyId`, a method the persistence gateway does not have, so it
throws a TypeError: the claimed re-read, the Internal 500 fallback, and
the 200 success envelope are unreachable. -/
theorem publishAVideo_findbyId_typo_crash :
    publishAVideo envOk pubReqOk =
      (.jsError "TypeError: Video.findbyId is not a function",
       [.uploadMedia "v.mp4", .uploadMedia "t.png",
        .dbCreate "https://cdn/v.mp4" "https://cdn/t.png" "My title" "My description" 37
          (some uid24)]) := by
  decide

/-- C9: retrieving an identifier that matches no stored video (the
database is empty here) does not produce the 400 not-found error of line
161; the handler calls `Video.findbyId`, a method the persistence
gateway does not have, and throws a TypeError before any database read.
No successful envelope with null data is produced either. -/
theorem getVideoById_findbyId_typo_crash :
    getVideoById emptyDb ⟨some vid24⟩ =
      (.jsError "TypeError: Video.findbyId is not a function", []) := by
  decide

/-- C10 counterexample: an update request with an ill-formed videoId and
a files object that lacks the thumbnail field answers the 400 identifier
validation error with no TypeError thrown, so the reading of
files.thumbnail[0] does not happen before every validation. -/
theorem updateVideo_videoId_validation_precedes_file_read :
    updateVideo envOk emptyDb updReqBadId = (.apiError 400 "Invalid video ID", []) := by
  decide

/-- C3 counterexample: a listing request whose page converts to the
finite non-integer 2.5 is not rejected: no Validation error is raised
and the query is performed, although 2.5 is not an integer ≥ 1. -/
theorem getAllVideos_accepts_noninteger_page :
    getAllVideos emptyDb listReqHalfPage = (.ok 200 [], [.dbAggregate]) := by
  have h : ¬((5 : ℚ) / 2 < 1) := by norm_num
  simp [getAllVideos, listReqHalfPage, emptyDb, JSNum.isFinite, JSNum.ltc, strBlank,
    jsTruthyO, isValidObjectIdO, matchedSorted, insertionSort, h, jsTrim, isJsSpace]

/-- C4: every record of a successful listing response has its owner
equal to the identifier built from the request's userId, whether or not
a userId was supplied: the match stage applies the owner filter (with
isPublished) unconditionally. -/
theorem getAllVideos_owner_filter_unconditional (db : DB) (req : ListReq) :
    (outData (getAllVideos db req)).all (fun r => r.owner == objectIdOf req.userId) = true := by
  simp only [getAllVideos]
  split_ifs with h1 h2 h3 h4
  · rfl
  · rfl
  · rfl
  · rfl
  · rw [List.all_eq_true]
    intro r hr
    rcases List.mem_map.mp hr with ⟨p, hp, rfl⟩
    have hms : p ∈ matchedSorted db req.userId (req.query.getD "") req.sortBy req.sortType :=
      (((List.take_sublist _ _).trans (List.drop_sublist _ _)).subset) hp
    have ho := mem_matchedSorted_owner hms
    simp [project, ho]

/-- The $sort comparison entails the promised page order on sort keys. -/
theorem dirLe_of_sortLeB (sb : Option SortField) (st : Option String)
    (a b : Video × Option User) (h : sortLeB sb st a b = true) :
    dirLe st (sortValue a sb) (sortValue b sb) = true := by
  by_cases hd : (st == some "desc") = true <;> simp_all [sortLeB, dirLe]

/-- Any page cut out of the sorted pipeline output is ordered by the
promised page order after projection. -/
theorem pairwise_page (db : DB) (userId : Option String) (q : String)
    (sb : Option SortField) (st : Option String) (s t : ℕ) :
    (((((matchedSorted db userId q sb st).drop s).take t).map project).map
        (fun r => sortValueP r sb)).Pairwise (fun a b => dirLe st a b = true) := by
  have hpw := pairwise_matchedSorted db userId q sb st
  have hsub : List.Sublist (((matchedSorted db userId q sb st).drop s).take t)
      (matchedSorted db userId q sb st) :=
    (List.take_sublist t _).trans (List.drop_sublist s _)
  have hpw2 := List.Pairwise.sublist hsub hpw
  rw [List.map_map, List.pairwise_map]
  refine hpw2.imp ?_
  intro a b hab
  have hd := dirLe_of_sortLeB _ _ a b hab
  simpa [Function.comp, sortValueP_project] using hd

/-- C5: on every successful listing response, the sort key values of the
returned page are ordered by `dirLe`: non-increasing when sortType is
"desc" and non-decreasing for any other sortType (including an absent
one). -/
theorem getAllVideos_page_sorted (db : DB) (req : ListReq) :
    ((outData (getAllVideos db req)).map (fun r => sortValueP r req.sortBy)).Pairwise
      (fun a b => dirLe req.sortType a b = true) := by
  simp only [getAllVideos]
  split_ifs with h1 h2 h3 h4
  · exact List.Pairwise.nil
  · exact List.Pairwise.nil
  · exact List.Pairwise.nil
  · exact List.Pairwise.nil
  · simpa only [outData] using
      pairwise_page db req.userId (req.query.getD "") req.sortBy req.sortType _ _

/-- C2: for a valid listing request whose page and limit are integers
at least 1, the handler returns exactly the matched, sorted records
after skipping (page-1)*limit of them and taking at most limit, and the
returned page holds at most limit records. -/
theorem getAllVideos_skips_and_limits (db : DB) (req : ListReq) (pn ln : ℕ)
    (hpn : 1 ≤ pn) (hln : 1 ≤ ln)
    (hp : req.page.getD (.fin 1) = .fin (pn : ℚ))
    (hl : req.limit.getD (.fin 10) = .fin (ln : ℚ))
    (hq : strBlank req.query = false)
    (hu : (jsTruthyO req.userId && !isValidObjectIdO req.userId) = false) :
    getAllVideos db req =
      (.ok 200 ((((matchedSorted db req.userId (req.query.getD "") req.sortBy
          req.sortType).drop ((pn - 1) * ln)).take ln).map project), [.dbAggregate])
    ∧ (outData (getAllVideos db req)).length ≤ ln := by
  have hnp : ¬((pn : ℚ) < 1) := by rw [Nat.cast_lt_one]; omega
  have hnl : ¬((ln : ℚ) < 1) := by rw [Nat.cast_lt_one]; omega
  have heq : getAllVideos db req =
      (.ok 200 ((((matchedSorted db req.userId (req.query.getD "") req.sortBy
          req.sortType).drop ((pn - 1) * ln)).take ln).map project), [.dbAggregate]) := by
    simp only [getAllVideos, hp, hl, hq, hu, JSNum.isFinite, JSNum.ltc, JSNum.val,
      Bool.not_true, Bool.false_or, decide_eq_true_eq, hnp, hnl, if_false, Bool.and_self]
    rw [ratCount_page pn ln hpn, ratCount_natCast ln]
    rfl
  refine ⟨heq, ?_⟩
  rw [heq]
  simp only [outData, List.length_map, List.length_take]
  exact min_le_left _ _

/-- C3 (amended): the listing fails with a Validation error (400) - and
issues no query - exactly when the page or limit number is non-finite or
below 1 (integrality is not required), or the query is absent or blank
after trimming, or a supplied (truthy) userId is not a well-formed
identifier. -/
theorem getAllVideos_validation400_iff (db : DB) (req : ListReq) :
    ((is400 (getAllVideos db req).1 = true) ↔
      (jsNumBad (req.page.getD (.fin 1)) ∨ jsNumBad (req.limit.getD (.fin 10)) ∨
        queryBad req.query ∨ userIdBad req.userId))
    ∧ (is400 (getAllVideos db req).1 = true → (getAllVideos db req).2 = []) := by
  simp only [getAllVideos]
  split_ifs with h1 h2 h3 h4
  · exact ⟨iff_of_true rfl (Or.inl ((jsNumBad_iff _).mp h1)), fun _ => rfl⟩
  · exact ⟨iff_of_true rfl (Or.inr (Or.inl ((jsNumBad_iff _).mp h2))), fun _ => rfl⟩
  · exact ⟨iff_of_true rfl (Or.inr (Or.inr (Or.inl ((queryBad_iff _).mp h3)))), fun _ => rfl⟩
  · exact ⟨iff_of_true rfl (Or.inr (Or.inr (Or.inr ((userIdBad_iff _).mp h4)))), fun _ => rfl⟩
  · have hno : is400 (Outcome.ok (α := List ProjectedVideo) 200
        ((((matchedSorted db req.userId (req.query.getD "") req.sortBy req.sortType).drop
          (ratCount (((req.page.getD (.fin 1)).val - 1) * (req.limit.getD (.fin 10)).val))).take
          (ratCount (req.limit.getD (.fin 10)).val)).map project)) = false := rfl
    refine ⟨iff_of_false ?_ ?_, ?_⟩
    · intro hx
      rw [hno] at hx
      exact Bool.false_ne_true hx
    · rintro (hb | hb | hb | hb)
      · exact h1 ((jsNumBad_iff _).mpr hb)
      · exact h2 ((jsNumBad_iff _).mpr hb)
      · exact h3 ((queryBad_iff _).mpr hb)
      · exact h4 ((userIdBad_iff _).mpr hb)
    · intro hx
      rw [hno] at hx
      exact absurd hx Bool.false_ne_true

/-- C6: an update request that passes every input validation and finds
the stored video, but whose caller identity differs from the stored
owner, answers the Authorization error 403 after the single read; no
database write, no thumbnail upload and no thumbnail delete is issued. -/
theorem updateVideo_nonowner_403_no_side_effects (env : Env) (db : DB) (req : UpdateReq)
    (p : String) (v : Video)
    (h1 : isValidObjectIdO req.videoId = true)
    (h2 : chainRead req.files FilesObj.thumbnail = .ok (some p))
    (h3 : (p != "") = true)
    (h4 : strBlank req.title = false)
    (h5 : strBlank req.description = false)
    (h6 : List.find? (fun v => v._id == req.videoId.getD "") db.videos = some v)
    (h7 : userMismatch req.user v.owner = true) :
    updateVideo env db req =
      (.apiError 403 "You are not authorized to update this video",
       [.dbFindById (req.videoId.getD "")])
    ∧ (∀ x, Effect.uploadMedia x ∉ (updateVideo env db req).2)
    ∧ (∀ u, Effect.deleteMedia u ∉ (updateVideo env db req).2)
    ∧ (∀ i t d th, Effect.dbUpdate i t d th ∉ (updateVideo env db req).2) := by
  have heq : updateVideo env db req =
      (.apiError 403 "You are not authorized to update this video",
       [.dbFindById (req.videoId.getD "")]) := by
    simp [updateVideo, h1, h2, h3, h4, h5, h6, h7, jsTruthyO]
  refine ⟨heq, ?_, ?_, ?_⟩
  · intro x
    simp [heq]
  · intro u
    simp [heq]
  · intro i t d th
    simp [heq]

/-- C7: a fully successful update answers 200 with the rewritten record,
and its effect trace deletes the previously stored thumbnail exactly
once, strictly after the database write (the write effect precedes the
single delete effect). The stored thumbnail is non-empty here, as the
data model's invariant guarantees for persisted records. -/
theorem updateVideo_deletes_old_thumbnail_once_after_write (env : Env) (db : DB)
    (req : UpdateReq) (p : String) (v : Video) (ur : UploadResult)
    (h1 : isValidObjectIdO req.videoId = true)
    (h2 : chainRead req.files FilesObj.thumbnail = .ok (some p))
    (h3 : (p != "") = true)
    (h4 : strBlank req.title = false)
    (h5 : strBlank req.description = false)
    (h6 : List.find? (fun v => v._id == req.videoId.getD "") db.videos = some v)
    (h7 : userMismatch req.user v.owner = false)
    (h8 : env.upload p = some ur)
    (h9 : (v.thumbnail != "") = true) :
    updateVideo env db req =
      (.ok 200
        { v with
            title := req.title.getD ""
            description := req.description.getD ""
            thumbnail := ur.url },
       [.dbFindById (req.videoId.getD ""), .uploadMedia p,
        .dbUpdate (req.videoId.getD "") (req.title.getD "") (req.description.getD "") ur.url,
        .deleteMedia v.thumbnail])
    ∧ ∃ pre post,
        (updateVideo env db req).2 = pre ++ Effect.deleteMedia v.thumbnail :: post
        ∧ Effect.dbUpdate (req.videoId.getD "") (req.title.getD "")
            (req.description.getD "") ur.url ∈ pre
        ∧ Effect.deleteMedia v.thumbnail ∉ pre
        ∧ Effect.deleteMedia v.thumbnail ∉ post := by
  have heq : updateVideo env db req =
      (.ok 200
        { v with
            title := req.title.getD ""
            description := req.description.getD ""
            thumbnail := ur.url },
       [.dbFindById (req.videoId.getD ""), .uploadMedia p,
        .dbUpdate (req.videoId.getD "") (req.title.getD "") (req.description.getD "") ur.url,
        .deleteMedia v.thumbnail]) := by
    simp [updateVideo, h1, h2, h3, h4, h5, h6, h7, h8, h9, jsTruthyO]
  refine ⟨heq,
    [.dbFindById (req.videoId.getD ""), .uploadMedia p,
     .dbUpdate (req.videoId.getD "") (req.title.getD "") (req.description.getD "") ur.url],
    [], ?_, ?_, ?_, ?_⟩
  · simp [heq]
  · simp
  · simp
  · simp

/-- C8: in a create request that passes validation, the video file is
uploaded before the thumbnail file; when either upload returns nothing
the handler answers the Internal error 500 with exactly those two upload
effects issued - no cleanup delete of the asset that did upload, and no
retry of either upload - and in no run does the handler delete a media
asset. -/
theorem publishAVideo_upload_order_and_500_no_cleanup (env : Env) (req : PublishReq)
    (vp tp : String)
    (hv : chainRead req.files FilesObj.videoFile = .ok (some vp))
    (ht : chainRead req.files FilesObj.thumbnail = .ok (some tp))
    (hvp : (vp != "") = true) (htp : (tp != "") = true)
    (hti : strBlank req.title = false) (hde : strBlank req.description = false) :
    ((publishAVideo env req).2.take 2 = [.uploadMedia vp, .uploadMedia tp])
    ∧ (env.upload vp = none ∨ env.upload tp = none →
        publishAVideo env req =
          (.apiError 500 "Something went wrong while uploading the video or thumbnail",
           [.uploadMedia vp, .uploadMedia tp]))
    ∧ (∀ u, Effect.deleteMedia u ∉ (publishAVideo env req).2) := by
  rcases hu1 : env.upload vp with _ | vf <;> rcases hu2 : env.upload tp with _ | th <;>
    simp [publishAVideo, hv, ht, hvp, htp, hti, hde, jsTruthyO, hu1, hu2]

/-- C10 (amended): in publishAVideo a present files object lacking the
videoFile field (or holding it while lacking the thumbnail field) makes
the read of the field's first entry throw a TypeError before any
validation; in updateVideo the identifier validation runs first - an
ill-formed videoId answers 400 before the file read - and the same
TypeError fires only after that check, before the remaining
validations. -/
theorem files_field_absent_typeError_paths :
    (∀ (env : Env) (req : PublishReq) (fs : FilesObj),
      req.files = some fs → fs.videoFile = none →
      publishAVideo env req =
        (.jsError "TypeError: Cannot read properties of undefined (reading 0)", []))
    ∧ (∀ (env : Env) (req : PublishReq) (fs : FilesObj) (parts : List FilePart),
      req.files = some fs → fs.videoFile = some parts → fs.thumbnail = none →
      publishAVideo env req =
        (.jsError "TypeError: Cannot read properties of undefined (reading 0)", []))
    ∧ (∀ (env : Env) (db : DB) (req : UpdateReq) (fs : FilesObj),
      isValidObjectIdO req.videoId = true → req.files = some fs → fs.thumbnail = none →
      updateVideo env db req =
        (.jsError "TypeError: Cannot read properties of undefined (reading 0)", []))
    ∧ (∀ (env : Env) (db : DB) (req : UpdateReq),
      isValidObjectIdO req.videoId = false →
      updateVideo env db req = (.apiError 400 "Invalid video ID", [])) := by
  refine ⟨?_, ?_, ?_, ?_⟩
  · intro env req fs hf hvf
    simp [publishAVideo, chainRead, hf, hvf]
  · intro env req fs parts hf hvf hth
    simp [publishAVideo, chainRead, hf, hvf, hth]
  · intro env db req fs hid hf hth
    simp [updateVideo, chainRead, hid, hf, hth]
  · intro env db req hid
    simp [updateVideo, hid]

/-- Witness for C2 at page 2, limit 1 on a two-video database. -/
theorem getAllVideos_skips_and_limits_witness :
    getAllVideos dbTwo listReqOk =
      (.ok 200 ((((matchedSorted dbTwo listReqOk.userId (listReqOk.query.getD "")
          listReqOk.sortBy listReqOk.sortType).drop ((2 - 1) * 1)).take 1).map project),
       [.dbAggregate])
    ∧ (outData (getAllVideos dbTwo listReqOk)).length ≤ 1 :=
  getAllVideos_skips_and_limits dbTwo listReqOk 2 1 (by norm_num) (by norm_num)
    (by norm_num [listReqOk]) (by norm_num [listReqOk]) (by decide) (by decide)

/-- Witness for C3 at a NaN page parameter. -/
theorem getAllVideos_validation400_iff_witness :
    is400 (getAllVideos emptyDb listReqNanPage).1 = true
    ∧ (getAllVideos emptyDb listReqNanPage).2 = [] := by
  have h := getAllVideos_validation400_iff emptyDb listReqNanPage
  have h1 : is400 (getAllVideos emptyDb listReqNanPage).1 = true :=
    h.1.mpr (Or.inl (by simp [listReqNanPage, jsNumBad]))
  exact ⟨h1, h.2 h1⟩

/-- Witness for C6: a non-owner update of the stored video answers 403
with only the read effect. -/
theorem updateVideo_nonowner_403_no_side_effects_witness :
    updateVideo envOk dbTwo updReqIntruder =
      (.apiError 403 "You are not authorized to update this video",
       [.dbFindById (updReqIntruder.videoId.getD "")]) :=
  (updateVideo_nonowner_403_no_side_effects envOk dbTwo updReqIntruder "th.png" storedVideo
    (by decide) rfl (by decide) (by decide) (by decide) (by decide) (by decide)).1

/-- Witness for C7: an owner update of the stored video answers 200 and
its trace reads, uploads, writes, then deletes the old thumbnail. -/
theorem updateVideo_deletes_old_thumbnail_once_after_write_witness :
    updateVideo envOk dbTwo updReqOwner =
      (.ok 200
        { storedVideo with
            title := "New title"
            description := "New description"
            thumbnail := "https://cdn/th.png" },
       [.dbFindById vid24, .uploadMedia "th.png",
        .dbUpdate vid24 "New title" "New description" "https://cdn/th.png",
        .deleteMedia "https://cdn/old-thumb.png"]) :=
  (updateVideo_deletes_old_thumbnail_once_after_write envOk dbTwo updReqOwner "th.png"
    storedVideo ⟨"https://cdn/th.png", 37⟩ (by decide) rfl (by decide) (by decide)
    (by decide) (by decide) (by decide) rfl (by decide)).1

/-- Witness for C8: with a failing media store, a valid create request
answers 500 after uploading the video file then the thumbnail file. -/
theorem publishAVideo_upload_order_and_500_no_cleanup_witness :
    publishAVideo envFail pubReqOk =
      (.apiError 500 "Something went wrong while uploading the video or thumbnail",
       [.uploadMedia "v.mp4", .uploadMedia "t.png"]) :=
  (publishAVideo_upload_order_and_500_no_cleanup envFail pubReqOk "v.mp4" "t.png"
    rfl rfl (by decide) (by decide) (by decide) (by decide)).2.1 (Or.inl rfl)

/-- Witness for C10: a create request with a files object lacking the
videoFile field throws the TypeError with no effects issued. -/
theorem files_field_absent_typeError_paths_witness :
    publishAVideo envOk pubReqNoVideoField =
      (.jsError "TypeError: Cannot read properties of undefined (reading 0)", []) :=
  files_field_absent_typeError_paths.1 envOk pubReqNoVideoField
    ⟨none, some [⟨"t.png"⟩]⟩ (by decide) (by decide)
